import Mathlib

/-!
Shallow embedding of the Alfen HTTP charger client (charger/alfenhttp.go).

The client talks to the wallbox over HTTP. Stateful/effectful Go code is
embedded by passing the outcomes of the underlying transport calls
explicitly: a transport call either fails with an error string or yields a
`Response`. Functions that in Go perform several transport calls take the
outcome of each potential call as an argument and additionally return how
many calls of each kind they actually performed, so that retry/attempt
counts are part of the model. Numeric property values travel as JSON
numbers (Go `float64`); they are modelled as rationals, which preserves the
equality and order comparisons the code performs on them.
-/

namespace AlfenHttp

/-- An HTTP response as the client observes it: status code and body. -/
structure Response where
  statusCode : Nat
  body : String
deriving DecidableEq, Repr

/-- Outcome of a single transport call (`method()` in `ensureAuthenticated`,
or a `Post`/`Get` on the helper): a transport error or a response. -/
abbrev FetchOutcome := Except String Response

/-- Raw device status code `available` (source constant 4). -/
def available : ℚ := 4

/-- Raw device status code `cableConnected` (source constant 7). -/
def cableConnected : ℚ := 7

/-- Raw device status code `evConnected` (source constant 8). -/
def evConnected : ℚ := 8

/-- Raw device status code `preparingCharging` (source constant 9). -/
def preparingCharging : ℚ := 9

/-- Raw device status code `waitVehicleCharging` (source constant 10). -/
def waitVehicleCharging : ℚ := 10

/-- Raw device status code `chargingNormal` (source constant 11). -/
def chargingNormal : ℚ := 11

/-- Raw device status code `finishWaitVehicle` (source constant 16). -/
def finishWaitVehicle : ℚ := 16

/-- Raw device status code `finishWaitDisconnect` (source constant 17). -/
def finishWaitDisconnect : ℚ := 17

/-- Raw device status code `errorCharging` (source constant 21). -/
def errorCharging : ℚ := 21

/-- Raw device status code `errorTooManyRestarts` (source constant 26). -/
def errorTooManyRestarts : ℚ := 26

/-- Raw device status code `inoperative` (source constant 34). -/
def inoperative : ℚ := 34

/-- Raw device status code `loadBalancingForcedOff` (source constant 36). -/
def loadBalancingForcedOff : ℚ := 36

/-- Property id of the station current limit (source constant `2062_0`). -/
def maxStationCurrent : String := "2062_0"

/-- Property id of the raw charger state (source constant `2501_2`). -/
def state : String := "2501_2"

/-- Property id enabling phase switching (source constant `2185_0`). -/
def loadBalancingEnablePhaseSwitching : String := "2185_0"

/-- Property id of the installation max allowed phases (source constant `2189_0`). -/
def installationMaxAllowedPhases : String := "2189_0"

/-- The "on" sentinel written to boolean-like properties (source constant). -/
def statusOn : String := "1"

/-- Current (in A) below or at which the charger counts as disabled
(source constant `switchOffCurrent int64 = 5`). -/
def switchOffCurrent : Int := 5

/-- Maximum charging current in A (source constant `maxCurrent int64 = 16`). -/
def maxCurrent : Int := 16

/-- `login`, embedded over the outcome of the `POST /api/login` call:
a transport error propagates; a response with status other than 200 is a
`login failed` error; on 200 the body is read and login succeeds. -/
def login (post : Except String Response) : Except String Unit :=
  match post with
  | Except.error e => Except.error e
  | Except.ok resp =>
      if resp.statusCode ≠ 200 then
        Except.error (("login failed: ") ++ toString resp.statusCode)
      else
        Except.ok ()

/-- `ensureAuthenticated`, embedded over the outcomes of the (at most two)
executions of `method` and of the login POST. `m1` is what the first
execution of `method` returns, `m2` what a second execution would return,
`loginPost` what the login POST would return. The result carries the value
returned to the caller together with the number of `method` executions and
of login attempts actually performed. -/
def ensureAuthenticated (m1 m2 : FetchOutcome) (loginPost : Except String Response) :
    FetchOutcome × Nat × Nat :=
  match m1 with
  | Except.error e => (Except.error e, 1, 0)
  | Except.ok r1 =>
      if r1.statusCode = 401 then
        match login loginPost with
        | Except.error e => (Except.error e, 1, 1)
        | Except.ok _ =>
            match m2 with
            | Except.error e => (Except.error e, 2, 1)
            | Except.ok r2 => (Except.ok r2, 2, 1)
      else
        (Except.ok r1, 1, 0)

/-- The charge status enumeration (`api.ChargeStatus`). -/
inductive ChargeStatus where
  | StatusNone
  | StatusA
  | StatusB
  | StatusC
  | StatusE
deriving DecidableEq, Repr

/-- A dynamically typed property value (`interface\x7b\x7d` on the wire):
the kinds actually consumed are numbers, strings and booleans. -/
inductive Value where
  | num (x : ℚ)
  | str (s : String)
  | boolean (b : Bool)
deriving DecidableEq, Repr

/-- The `switch value.(float64)` in `Status`: maps a raw status code to a
charge status, with `StatusNone` plus an `unhandled status` error for any
code outside the table (the Go function returns the pair (status, err)). -/
def mapStatus (value : ℚ) : ChargeStatus × Option String :=
  if value = available then (ChargeStatus.StatusA, none)
  else if value = cableConnected ∨ value = evConnected ∨ value = preparingCharging ∨
      value = waitVehicleCharging ∨ value = finishWaitVehicle ∨
      value = finishWaitDisconnect ∨ value = loadBalancingForcedOff then
    (ChargeStatus.StatusB, none)
  else if value = chargingNormal then (ChargeStatus.StatusC, none)
  else if value = errorCharging ∨ value = errorTooManyRestarts ∨ value = inoperative then
    (ChargeStatus.StatusE, none)
  else (ChargeStatus.StatusNone, some (("unhandled status: ") ++ toString value))

/-- `Status`, embedded over the outcome of reading the `state` property:
on a read error the status is `StatusNone` with that error; on a numeric
value the switch above decides; a non-numeric value would fail the Go type
assertion. -/
def Status (read : Except String Value) : ChargeStatus × Option String :=
  match read with
  | Except.error e => (ChargeStatus.StatusNone, some e)
  | Except.ok (Value.num v) => mapStatus v
  | Except.ok _ => (ChargeStatus.StatusNone, some ("type assertion failed"))

/-- `Enabled`, embedded over the outcome of reading the `maxStationCurrent`
property: propagates a read error, otherwise compares the numeric reading
with `switchOffCurrent` (`maxCurrent.(float64) > float64(switchOffCurrent)`). -/
def Enabled (read : Except String Value) : Except String Bool :=
  match read with
  | Except.error e => Except.error e
  | Except.ok (Value.num v) => Except.ok (decide ((switchOffCurrent : ℚ) < v))
  | Except.ok _ => Except.error ("type assertion failed")

/-- One property as delivered by `GET /api/prop` (struct `Property`). -/
structure Property where
  id : String
  access : Int
  type : Int
  len : Int
  cat : String
  value : Value
deriving DecidableEq, Repr

/-- A full property snapshot as delivered by `GET /api/prop`
(struct `Properties`). -/
structure Properties where
  version : Int
  properties : List Property
  offset : Int
  total : Int
deriving DecidableEq, Repr

/-- The scan loop of `getProperty`: first property whose id matches wins;
an absent id yields an `unable to get property` error. -/
def getPropertyFrom (props : Properties) (id : String) : Except String Value :=
  match props.properties.find? (fun p => p.id = id) with
  | some p => Except.ok p.value
  | none => Except.error (("unable to get property ") ++ id)

/-- State of the memoizing property cache: the last successfully fetched
snapshot together with the time of that refresh, if any. -/
structure CacheState (α : Type) where
  lastResult : Option (α × Nat)
deriving DecidableEq, Repr

/-- The cache holds a snapshot fetched at time `t` that is still fresh at
time `now` (younger than the refresh interval). -/
def isFresh {α : Type} (interval : Nat) (s : CacheState α) (now : Nat) : Prop :=
  ∃ v t, s.lastResult = some (v, t) ∧ now < t + interval

/-- Modelled from the spec: `util.Cached` (package `util`, not under the
sources at hand) wraps the refresh function with single-flight + TTL
semantics — if the last successful refresh is younger than the interval the
memoized snapshot is returned without any network call; otherwise exactly
one refresh runs, its error is returned to the waiters and is not cached.
`fetch` is the outcome the refresh function would produce at `now`; the
returned `Bool` records whether a network fetch occurred. -/
def cachedCall {α : Type} (interval now : Nat) (fetch : Except String α)
    (s : CacheState α) : Except String α × CacheState α × Bool :=
  match s.lastResult with
  | some (v, t) =>
      if now < t + interval then (Except.ok v, s, false)
      else
        match fetch with
        | Except.ok v2 => (Except.ok v2, ⟨some (v2, now)⟩, true)
        | Except.error e => (Except.error e, s, true)
  | none =>
      match fetch with
      | Except.ok v2 => (Except.ok v2, ⟨some (v2, now)⟩, true)
      | Except.error e => (Except.error e, s, true)

/-- `getProperty`, embedded over the cache state: asks the cached getter
(`getPropertiesG`, built with a 5 second interval in `NewAlfenHttp`) for a
snapshot, then scans it for the id. Returns the value, the new cache state
and whether a network fetch occurred. -/
def getProperty (now : Nat) (fetch : Except String Properties)
    (s : CacheState Properties) (id : String) :
    Except String Value × CacheState Properties × Bool :=
  match cachedCall 5 now fetch s with
  | (Except.error e, s2, f) => (Except.error e, s2, f)
  | (Except.ok props, s2, f) => (getPropertyFrom props id, s2, f)

/-- `setProperty`, embedded over the transport outcomes fed to
`ensureAuthenticated`: a failure of the authenticated call is returned,
and any response — whatever its status code — yields success; the response
status is not inspected after the authenticated call returns. -/
def setProperty (m1 m2 : FetchOutcome) (loginPost : Except String Response) :
    Except String Unit :=
  match (ensureAuthenticated m1 m2 loginPost).1 with
  | Except.error e => Except.error e
  | Except.ok _ => Except.ok ()

/-- An HTTP request the gateway can issue against the device, used to trace
which calls a composite operation actually performs. -/
inductive Req where
  | write (property value : String)
  | logoutReq
deriving DecidableEq, Repr

/-- `Phases1p3p`, embedded over the outcome `setp` of each property write:
first writes `loadBalancingEnablePhaseSwitching = statusOn`; if that fails
its error is returned and nothing else happens; otherwise writes
`installationMaxAllowedPhases` to the requested phase count. The trace
lists the writes actually performed, in order. -/
def Phases1p3p (phases : Int) (setp : String → String → Except String Unit) :
    Except String Unit × List Req :=
  match setp loadBalancingEnablePhaseSwitching statusOn with
  | Except.error e =>
      (Except.error e, [Req.write loadBalancingEnablePhaseSwitching statusOn])
  | Except.ok _ =>
      (setp installationMaxAllowedPhases (toString phases),
        [Req.write loadBalancingEnablePhaseSwitching statusOn,
         Req.write installationMaxAllowedPhases (toString phases)])

/-- `MaxCurrent`, embedded over the outcome of the single property write it
performs (`maxStationCurrent := current`), with its request trace. -/
def MaxCurrent (current : Int) (setp : String → String → Except String Unit) :
    Except String Unit × List Req :=
  (setp maxStationCurrent (toString current),
    [Req.write maxStationCurrent (toString current)])

/-- `Shutdown`: resets the charger to 3 phases, resets the current limit to
`maxCurrent` and logs out. The Go method returns nothing and discards the
result of every step (`logoutR` is the outcome the logout POST would
produce); the model returns the trace of requests issued. -/
def Shutdown (setp : String → String → Except String Unit)
    (logoutR : Except String Unit) : List Req :=
  (Phases1p3p 3 setp).2 ++ (MaxCurrent maxCurrent setp).2 ++ [Req.logoutReq]

/-- A concrete one-property snapshot used to evaluate the cache model on
closed inputs: the `state` property reads `chargingNormal`. -/
def sampleProps : Properties :=
  Properties.mk 1 [Property.mk state 0 0 0 ("status") (Value.num 11)] 0 1

/-- C1: if the first execution of the action returns HTTP 401 and the
subsequent re-login succeeds, then exactly two executions of the action and
exactly one login are performed, and the outcome of the single retry —
including a second 401 response — is returned to the caller unchanged. -/
theorem ensureAuthenticated_retry_once (r1 : Response) (m2 : FetchOutcome)
    (lp : Except String Response) (h1 : r1.statusCode = 401)
    (h2 : login lp = Except.ok ()) :
    (ensureAuthenticated (Except.ok r1) m2 lp).2 = (2, 1) ∧
    (∀ r2 : Response, m2 = Except.ok r2 →
      (ensureAuthenticated (Except.ok r1) m2 lp).1 = Except.ok r2) ∧
    (∀ e : String, m2 = Except.error e →
      (ensureAuthenticated (Except.ok r1) m2 lp).1 = Except.error e) := by
  rcases m2 with e | r2 <;> simp [ensureAuthenticated, h1, h2]

/-- C1 witness: a concrete run whose first fetch answers 401, re-login
succeeds and the retried fetch answers 200. -/
theorem ensureAuthenticated_retry_once_witness :
    (Response.mk 401 "").statusCode = 401 ∧
    login (Except.ok (Response.mk 200 "")) = Except.ok () ∧
    (ensureAuthenticated (Except.ok (Response.mk 401 ""))
      (Except.ok (Response.mk 200 "ok")) (Except.ok (Response.mk 200 ""))).2 = (2, 1) := by
  refine ⟨rfl, rfl, ?_⟩
  exact (ensureAuthenticated_retry_once (Response.mk 401 "")
    (Except.ok (Response.mk 200 "ok")) (Except.ok (Response.mk 200 "")) rfl rfl).1

/-- C6: if the first execution of the action returns HTTP 401 and the
re-login fails, the overall call fails with the login error and the action
is executed once only (no retry is attempted). -/
theorem ensureAuthenticated_login_failure (r1 : Response) (m2 : FetchOutcome)
    (lp : Except String Response) (e : String) (h1 : r1.statusCode = 401)
    (h2 : login lp = Except.error e) :
    ensureAuthenticated (Except.ok r1) m2 lp = (Except.error e, 1, 1) := by
  simp [ensureAuthenticated, h1, h2]

/-- C6 witness: a concrete run whose first fetch answers 401 and whose
login POST answers 403, so re-login fails and no retry happens. -/
theorem ensureAuthenticated_login_failure_witness :
    (Response.mk 401 "").statusCode = 401 ∧
    login (Except.ok (Response.mk 403 "")) = Except.error (("login failed: ") ++ "403") ∧
    ensureAuthenticated (Except.ok (Response.mk 401 "")) (Except.ok (Response.mk 200 ""))
        (Except.ok (Response.mk 403 "")) =
      (Except.error (("login failed: ") ++ "403"), 1, 1) := by
  refine ⟨rfl, rfl, ?_⟩
  exact ensureAuthenticated_login_failure (Response.mk 401 "")
    (Except.ok (Response.mk 200 "")) (Except.ok (Response.mk 403 ""))
    (("login failed: ") ++ "403") rfl rfl

/-- C2: the status table of `Status`: 4 maps to StatusA (no vehicle); 7, 8,
9, 10, 16, 17 and 36 map to StatusB (connected, not charging); 11 maps to
StatusC (charging); 21, 26 and 34 map to StatusE (error) — in each case
with no error. -/
theorem mapStatus_table :
    Status (Except.ok (Value.num 4)) = (ChargeStatus.StatusA, none) ∧
    Status (Except.ok (Value.num 7)) = (ChargeStatus.StatusB, none) ∧
    Status (Except.ok (Value.num 8)) = (ChargeStatus.StatusB, none) ∧
    Status (Except.ok (Value.num 9)) = (ChargeStatus.StatusB, none) ∧
    Status (Except.ok (Value.num 10)) = (ChargeStatus.StatusB, none) ∧
    Status (Except.ok (Value.num 16)) = (ChargeStatus.StatusB, none) ∧
    Status (Except.ok (Value.num 17)) = (ChargeStatus.StatusB, none) ∧
    Status (Except.ok (Value.num 36)) = (ChargeStatus.StatusB, none) ∧
    Status (Except.ok (Value.num 11)) = (ChargeStatus.StatusC, none) ∧
    Status (Except.ok (Value.num 21)) = (ChargeStatus.StatusE, none) ∧
    Status (Except.ok (Value.num 26)) = (ChargeStatus.StatusE, none) ∧
    Status (Except.ok (Value.num 34)) = (ChargeStatus.StatusE, none) := by
  decide

/-- C3: every raw status code outside the mapping table yields StatusNone
together with an `unhandled status` error carrying the raw code, never a
default charge-status category. -/
theorem mapStatus_unhandled (v : ℚ)
    (h : v ∉ ([available, cableConnected, evConnected, preparingCharging,
      waitVehicleCharging, chargingNormal, finishWaitVehicle, finishWaitDisconnect,
      errorCharging, errorTooManyRestarts, inoperative, loadBalancingForcedOff] : List ℚ)) :
    Status (Except.ok (Value.num v)) =
      (ChargeStatus.StatusNone, some (("unhandled status: ") ++ toString v)) := by
  simp only [List.mem_cons, List.mem_singleton, not_or] at h
  obtain ⟨h4, h7, h8, h9, h10, h11, h16, h17, h21, h26, h34, h36⟩ := h
  simp [Status, mapStatus, h4, h7, h8, h9, h10, h11, h16, h17, h21, h26, h34, h36]

/-- C3 witness: code 999 is outside the table and yields the unhandled
status error. -/
theorem mapStatus_unhandled_witness :
    (999 : ℚ) ∉ ([available, cableConnected, evConnected, preparingCharging,
      waitVehicleCharging, chargingNormal, finishWaitVehicle, finishWaitDisconnect,
      errorCharging, errorTooManyRestarts, inoperative, loadBalancingForcedOff] : List ℚ) ∧
    Status (Except.ok (Value.num 999)) =
      (ChargeStatus.StatusNone, some (("unhandled status: ") ++ toString (999 : ℚ))) := by
  refine ⟨by decide, ?_⟩
  exact mapStatus_unhandled 999 (by decide)

/-- C4: while the cache holds a snapshot younger than the 5 second
interval, `getSnapshot`/`getProperty` return the memoized snapshot, the
cache state is unchanged and no network fetch occurs. -/
theorem cached_fresh_no_fetch (now t : Nat) (props : Properties)
    (fetch : Except String Properties) (s : CacheState Properties) (id : String)
    (h1 : s.lastResult = some (props, t)) (h2 : now < t + 5) :
    cachedCall 5 now fetch s = (Except.ok props, s, false) ∧
    getProperty now fetch s id = (getPropertyFrom props id, s, false) := by
  obtain ⟨ls⟩ := s
  simp only at h1
  subst h1
  exact ⟨by simp [cachedCall, h2], by simp [getProperty, cachedCall, h2]⟩

/-- C4 witness: a cache refreshed at time 0 queried at time 3 serves the
memoized snapshot without fetching, even though the transport is down. -/
theorem cached_fresh_no_fetch_witness :
    (CacheState.mk (some (sampleProps, 0)) : CacheState Properties).lastResult =
      some (sampleProps, 0) ∧
    (3 : Nat) < 0 + 5 ∧
    getProperty 3 (Except.error ("down")) (CacheState.mk (some (sampleProps, 0))) state =
      (getPropertyFrom sampleProps state, CacheState.mk (some (sampleProps, 0)), false) := by
  refine ⟨rfl, by decide, ?_⟩
  exact (cached_fresh_no_fetch 3 0 sampleProps (Except.error ("down"))
    (CacheState.mk (some (sampleProps, 0))) state rfl (by decide)).2

/-- C5: a failed refresh is returned to the caller and never stored: the
cache state is unchanged, and any later call that finds the cache stale or
empty performs a fresh network fetch instead of being served the failure. -/
theorem cached_failure_not_cached (now now2 : Nat) (e : String)
    (s : CacheState Properties) (f2 : Except String Properties)
    (h1 : ¬ isFresh 5 s now) (h2 : ¬ isFresh 5 s now2) :
    cachedCall 5 now (Except.error e) s = (Except.error e, s, true) ∧
    (cachedCall 5 now2 f2 s).2.2 = true := by
  obtain ⟨ls⟩ := s
  cases ls with
  | none => cases f2 <;> simp [cachedCall]
  | some vt =>
      obtain ⟨v, t⟩ := vt
      have hn1 : ¬ now < t + 5 := fun hlt => h1 ⟨v, t, rfl, hlt⟩
      have hn2 : ¬ now2 < t + 5 := fun hlt => h2 ⟨v, t, rfl, hlt⟩
      cases f2 <;> simp [cachedCall, hn1, hn2]

/-- C5 witness: on an empty cache a failing refresh at time 0 returns the
error and leaves the cache empty, and a call at time 7 fetches again. -/
theorem cached_failure_not_cached_witness :
    ¬ isFresh 5 (CacheState.mk none : CacheState Properties) 0 ∧
    cachedCall 5 0 (Except.error ("down")) (CacheState.mk none : CacheState Properties) =
      (Except.error ("down"), CacheState.mk none, true) ∧
    (cachedCall 5 7 (Except.ok sampleProps) (CacheState.mk none : CacheState Properties)).2.2 =
      true := by
  have hf0 : ¬ isFresh 5 (CacheState.mk none : CacheState Properties) 0 := by simp [isFresh]
  have hf7 : ¬ isFresh 5 (CacheState.mk none : CacheState Properties) 7 := by simp [isFresh]
  have h := cached_failure_not_cached 0 7 ("down") (CacheState.mk none)
    (Except.ok sampleProps) hf0 hf7
  exact ⟨hf0, h.1, h.2⟩

/-- C7: `Enabled` reads the `maxStationCurrent` property and compares it to
the cutoff: any reading at or below `switchOffCurrent` (5) yields false, a
reading of 16 yields true, and in general the result is exactly the
comparison `switchOffCurrent < reading`. -/
theorem enabled_thresholds (v : ℚ) (h : v ≤ (switchOffCurrent : ℚ)) :
    Enabled (Except.ok (Value.num v)) = Except.ok false ∧
    Enabled (Except.ok (Value.num 16)) = Except.ok true ∧
    ∀ w : ℚ, Enabled (Except.ok (Value.num w)) =
      Except.ok (decide ((switchOffCurrent : ℚ) < w)) := by
  refine ⟨?_, ?_, fun w => rfl⟩
  · have hn : ¬ ((switchOffCurrent : ℚ) < v) := not_lt.mpr h
    simp [Enabled, hn]
  · have hl : ((switchOffCurrent : ℚ) < 16) := by norm_num [switchOffCurrent]
    simp [Enabled, hl]

/-- C7 witness: a reading of exactly 5 is disabled, a reading of 16 is
enabled. -/
theorem enabled_thresholds_witness :
    (5 : ℚ) ≤ (switchOffCurrent : ℚ) ∧
    Enabled (Except.ok (Value.num 5)) = Except.ok false ∧
    Enabled (Except.ok (Value.num 16)) = Except.ok true := by
  have h5 : (5 : ℚ) ≤ (switchOffCurrent : ℚ) := by norm_num [switchOffCurrent]
  have h := enabled_thresholds 5 h5
  exact ⟨h5, h.1, h.2.1⟩

/-- C8: when the first write of `Phases1p3p` (enable phase switching)
fails, its error is returned, the write trace holds only that first write,
and the phase-count property is never written. -/
theorem phases1p3p_first_write_fails (phases : Int)
    (setp : String → String → Except String Unit) (e : String)
    (h : setp loadBalancingEnablePhaseSwitching statusOn = Except.error e) :
    Phases1p3p phases setp =
      (Except.error e, [Req.write loadBalancingEnablePhaseSwitching statusOn]) ∧
    ∀ v : String, Req.write installationMaxAllowedPhases v ∉ (Phases1p3p phases setp).2 := by
  have h1 : Phases1p3p phases setp =
      (Except.error e, [Req.write loadBalancingEnablePhaseSwitching statusOn]) := by
    simp [Phases1p3p, h]
  refine ⟨h1, fun v => ?_⟩
  rw [h1]
  simp [installationMaxAllowedPhases, loadBalancingEnablePhaseSwitching, statusOn]

/-- C8 witness: with a transport on which every write fails, `Phases1p3p 3`
returns the first write's error after issuing only that write. -/
theorem phases1p3p_first_write_fails_witness :
    (fun _ _ => (Except.error ("write failed") : Except String Unit))
        loadBalancingEnablePhaseSwitching statusOn = Except.error ("write failed") ∧
    Phases1p3p 3 (fun _ _ => Except.error ("write failed")) =
      (Except.error ("write failed"), [Req.write loadBalancingEnablePhaseSwitching statusOn]) := by
  exact ⟨rfl, (phases1p3p_first_write_fails 3 _ ("write failed") rfl).1⟩

/-- C9: `Shutdown` always issues, in order, the phase-reset writes, the
write forcing the current limit to 16, and the logout request — whatever
each step's outcome, including a failing logout — and a repeated invocation
runs the same complete sequence again; the method returns no error. -/
theorem shutdown_best_effort (setp : String → String → Except String Unit)
    (logoutR logoutR2 : Except String Unit) :
    Shutdown setp logoutR =
      (Phases1p3p 3 setp).2 ++
        [Req.write maxStationCurrent (toString maxCurrent), Req.logoutReq] ∧
    Req.write maxStationCurrent "16" ∈ Shutdown setp logoutR ∧
    Req.logoutReq ∈ Shutdown setp logoutR ∧
    Shutdown setp logoutR2 = Shutdown setp logoutR := by
  have hts : toString maxCurrent = "16" := rfl
  refine ⟨by simp [Shutdown, MaxCurrent], ?_, ?_, rfl⟩
  · simp [Shutdown, MaxCurrent, hts]
  · simp [Shutdown]

/-- C10: `setProperty` reports success whenever the authenticated call
yields any response: in particular a first response with any status other
than 401 — for example 500 — produces a nil error, and more generally any
response handed back by `ensureAuthenticated` does; the response status is
never checked after the authenticated call returns. -/
theorem setProperty_status_unchecked (m2 : FetchOutcome) (lp : Except String Response)
    (r1 : Response) (h : r1.statusCode ≠ 401) :
    setProperty (Except.ok r1) m2 lp = Except.ok () ∧
    ∀ (m1 : FetchOutcome) (r : Response),
      (ensureAuthenticated m1 m2 lp).1 = Except.ok r →
        setProperty m1 m2 lp = Except.ok () := by
  constructor
  · simp [setProperty, ensureAuthenticated, h]
  · intro m1 r hr
    simp [setProperty, hr]

/-- C10 witness: a write whose response is HTTP 500 still reports success. -/
theorem setProperty_status_unchecked_witness :
    (Response.mk 500 "").statusCode ≠ 401 ∧
    setProperty (Except.ok (Response.mk 500 "")) (Except.ok (Response.mk 200 ""))
      (Except.ok (Response.mk 200 "")) = Except.ok () := by
  refine ⟨by decide, ?_⟩
  exact (setProperty_status_unchecked (Except.ok (Response.mk 200 ""))
    (Except.ok (Response.mk 200 "")) (Response.mk 500 "") (by decide)).1

end AlfenHttp
